import Mathlib

/-!
# Verification of the chat-relay bot core (src/main.rs)

Shallow embedding of the single-file Rust program: the JSON data model
(`ChatCompletion`, `Usage`, `Choice`, `GPTMessage` with their serde-derived
serialization semantics), the completion client `Bot.ask_gpt`, the message
handler `Bot.message`, and the startup environment-variable checks of `main`.

The network is modelled as an explicit parameter (`HttpResponse`): either the
HTTP round trip fails, or it yields a response body.  JSON bodies are modelled
by the value fragment the program exchanges (strings, integers, arrays,
objects).  Rust panics (`unwrap` on header parsing, out-of-bounds indexing
`choices[0]`) are modelled as an explicit `panicked` outcome.
-/

namespace ChatBot

/-- JSON values, restricted to the fragment exchanged by the program. -/
inductive Json where
  | str (s : String)
  | num (n : Int)
  | arr (elems : List Json)
  | obj (fields : List (String × Json))
deriving Repr

/-- Field lookup in a JSON object, as serde sees a struct's input:
anything that is not an object has no fields. -/
def Json.getField : Json → String → Option Json
  | .obj fields, name => fields.lookup name
  | _, _ => none

/-- Deserializing a `String` field. -/
def Json.getStr? : Json → Option String
  | .str s => some s
  | _ => none

/-- The value range of Rust's `i64`. -/
abbrev i64Range (n : Int) : Prop := -(2 ^ 63) ≤ n ∧ n < 2 ^ 63

/-- The value range of Rust's `i32`. -/
abbrev i32Range (n : Int) : Prop := -(2 ^ 31) ≤ n ∧ n < 2 ^ 31

/-- Deserializing an `i64` field: serde_json rejects out-of-range integers. -/
def Json.getI64? : Json → Option Int
  | .num n => if i64Range n then some n else none
  | _ => none

/-- Deserializing an `i32` field: serde_json rejects out-of-range integers. -/
def Json.getI32? : Json → Option Int
  | .num n => if i32Range n then some n else none
  | _ => none

/-- Deserializing an array field. -/
def Json.getArr? : Json → Option (List Json)
  | .arr xs => some xs
  | _ => none

/-- `const ENDPOINT` of main.rs. -/
def ENDPOINT : String := "https://api.openai.com/v1/chat/completions"

/-- `const ERROR_MESSAGE` of main.rs. -/
def ERROR_MESSAGE : String :=
  "Unable to get a response. If this problem continues, please contact the administrator of the bot."

/-- `struct GPTMessage { role, content }` of main.rs. -/
structure GPTMessage where
  role : String
  content : String
deriving Repr, DecidableEq

/-- `struct Usage` of main.rs (`i32` counters modelled as `Int`; the i32
range is enforced at deserialization). -/
structure Usage where
  prompt_tokens : Int
  completion_tokens : Int
  total_tokens : Int
deriving Repr, DecidableEq

/-- `struct Choice` of main.rs. -/
structure Choice where
  message : GPTMessage
  finish_reason : String
  index : Int
deriving Repr, DecidableEq

/-- `struct ChatCompletion` of main.rs. -/
structure ChatCompletion where
  id : String
  object : String
  created : Int
  model : String
  usage : Usage
  choices : List Choice
deriving Repr, DecidableEq

/-- Derived `Serialize` for `GPTMessage`: a JSON object with the struct's
fields in declaration order. -/
def GPTMessage.toJson (m : GPTMessage) : Json :=
  .obj [("role", .str m.role), ("content", .str m.content)]

/-- Derived `Deserialize` for `GPTMessage`: both fields are required
(no serde default or optional markers); unknown fields are ignored. -/
def GPTMessage.fromJson? (j : Json) : Option GPTMessage := do
  let role ← (← j.getField "role").getStr?
  let content ← (← j.getField "content").getStr?
  pure ⟨role, content⟩

/-- Derived `Serialize` for `Usage`. -/
def Usage.toJson (u : Usage) : Json :=
  .obj [("prompt_tokens", .num u.prompt_tokens),
        ("completion_tokens", .num u.completion_tokens),
        ("total_tokens", .num u.total_tokens)]

/-- Derived `Deserialize` for `Usage`: all three counters are required. -/
def Usage.fromJson? (j : Json) : Option Usage := do
  let pt ← (← j.getField "prompt_tokens").getI32?
  let ct ← (← j.getField "completion_tokens").getI32?
  let tt ← (← j.getField "total_tokens").getI32?
  pure ⟨pt, ct, tt⟩

/-- Derived `Serialize` for `Choice`. -/
def Choice.toJson (c : Choice) : Json :=
  .obj [("message", c.message.toJson),
        ("finish_reason", .str c.finish_reason),
        ("index", .num c.index)]

/-- Derived `Deserialize` for `Choice`: all three fields are required. -/
def Choice.fromJson? (j : Json) : Option Choice := do
  let message ← GPTMessage.fromJson? (← j.getField "message")
  let finish_reason ← (← j.getField "finish_reason").getStr?
  let index ← (← j.getField "index").getI32?
  pure ⟨message, finish_reason, index⟩

/-- Deserializing a `Vec<Choice>`: serde deserializes the elements in order
and fails as soon as one element fails. -/
def decodeChoices : List Json → Option (List Choice)
  | [] => some []
  | x :: xs => do
    let c ← Choice.fromJson? x
    let cs ← decodeChoices xs
    pure (c :: cs)

/-- Derived `Serialize` for `ChatCompletion`. -/
def ChatCompletion.toJson (cc : ChatCompletion) : Json :=
  .obj [("id", .str cc.id), ("object", .str cc.object),
        ("created", .num cc.created), ("model", .str cc.model),
        ("usage", cc.usage.toJson),
        ("choices", .arr (cc.choices.map Choice.toJson))]

/-- Derived `Deserialize` for `ChatCompletion`: every field is required,
`choices` must be an array and every element must deserialize. -/
def ChatCompletion.fromJson? (j : Json) : Option ChatCompletion := do
  let id ← (← j.getField "id").getStr?
  let object ← (← j.getField "object").getStr?
  let created ← (← j.getField "created").getI64?
  let model ← (← j.getField "model").getStr?
  let usage ← Usage.fromJson? (← j.getField "usage")
  let choicesJson ← (← j.getField "choices").getArr?
  let choices ← decodeChoices choicesJson
  pure ⟨id, object, created, model, usage, choices⟩

/-- Validity of one byte of an HTTP header value, as checked by the http
crate's `HeaderValue::from_str` (reached through `"...".parse()`):
a byte is legal iff it is ≥ 32 and ≠ 127, or is the horizontal tab (9). -/
def headerByteValid (b : Nat) : Bool :=
  (32 ≤ b && b ≠ 127) || b == 9

/-- Validity of a whole header value string.  A character ≥ U+0080 encodes in
UTF-8 to bytes that are all ≥ 128, hence always legal; an ASCII character
encodes to the single byte equal to its code point, so the byte check applies
to it directly. -/
def headerValueValid (s : String) : Bool :=
  s.data.all fun c => 128 ≤ c.toNat || headerByteValid c.toNat

/-- The request body built by `ask_gpt`:
`serde_json::json!({ "model": "gpt-3.5-turbo", "messages": vec![message] })`. -/
def requestBody (message : GPTMessage) : Json :=
  .obj [("model", .str "gpt-3.5-turbo"),
        ("messages", .arr [message.toJson])]

/-- Outcome of the HTTP round trip `send()`/`.json()`, an explicit model
parameter: the transport either fails outright or yields a response body.
(The program never inspects the HTTP status code, so a non-2xx response is a
`success` whose body simply fails to deserialize as a `ChatCompletion`.) -/
inductive HttpResponse where
  | failure
  | success (body : Json)
deriving Repr

/-- Result of one `ask_gpt` call: a Rust panic, `Err(reqwest::Error)`, or
`Ok(message)`. -/
inductive AskGptOutcome where
  | panicked
  | error
  | ok (msg : GPTMessage)
deriving Repr, DecidableEq

/-- Observable trace of one `ask_gpt` call: the request bodies actually
posted to the endpoint, and the returned outcome. -/
structure AskGptTrace where
  sentRequests : List Json
  result : AskGptOutcome
deriving Repr

/-- `Bot::ask_gpt` of main.rs.  Builds the `Authorization: Bearer <token>`
header with `.parse().unwrap()` — an invalid header value panics before any
request is sent (the `CONTENT_TYPE` header value `"application/json"` is
always valid).  Otherwise it posts `requestBody message`, propagates a
transport failure as `Err` via `?`, deserializes the body (failure is again
`Err` via `?`), and returns `choices[0].message` — an out-of-bounds panic
when `choices` is empty. -/
def ask_gpt (openai_token : String) (message : GPTMessage)
    (net : HttpResponse) : AskGptTrace :=
  if headerValueValid ("Bearer " ++ openai_token) then
    { sentRequests := [requestBody message],
      result :=
        match net with
        | .failure => .error
        | .success body =>
          match ChatCompletion.fromJson? body with
          | none => .error
          | some output =>
            match output.choices with
            | [] => .panicked
            | c :: _ => .ok c.message }
  else
    { sentRequests := [], result := .panicked }

/-- The inbound Discord message, as far as the handler reads it:
`msg.author.bot` and `msg.content`. -/
structure DiscordMessage where
  author_bot : Bool
  content : String
deriving Repr, DecidableEq

/-- Observable trace of one invocation of the `message` event handler. -/
structure HandlerTrace where
  gptCalls : List GPTMessage
  sentRequests : List Json
  replies : List String
  panicked : Bool
deriving Repr

/-- `Bot::message` of main.rs (the `EventHandler::message` callback).
Returns silently when `msg.author.bot`; otherwise builds the single
`role = "user"` turn from `msg.content`, calls `ask_gpt`, and replies with
the returned content on `Ok` or with `ERROR_MESSAGE` on `Err`.  A panic
inside `ask_gpt` propagates (no reply is sent).  The `msg.reply(..).unwrap()`
send itself is modelled as succeeding. -/
def Bot.message (openai_token : String) (msg : DiscordMessage)
    (net : HttpResponse) : HandlerTrace :=
  if msg.author_bot then
    { gptCalls := [], sentRequests := [], replies := [], panicked := false }
  else
    let m : GPTMessage := { role := "user", content := msg.content }
    let t := ask_gpt openai_token m net
    match t.result with
    | .panicked =>
      { gptCalls := [m], sentRequests := t.sentRequests, replies := [],
        panicked := true }
    | .error =>
      { gptCalls := [m], sentRequests := t.sentRequests,
        replies := [ERROR_MESSAGE], panicked := false }
    | .ok response =>
      { gptCalls := [m], sentRequests := t.sentRequests,
        replies := [response.content], panicked := false }

/-- Result of the startup sequence of `main` up to the point where a gateway
connection would be attempted. -/
inductive StartupResult where
  | exited (code : Nat) (printed : List String)
  | connected (discord_token : String) (openai_token : String)
deriving Repr, DecidableEq

/-- The startup prefix of `main` in main.rs: read `DISCORD_TOKEN` and
`OPENAI_TOKEN` from the environment (an absent variable is `none`); if either
is missing, print the corresponding message and `process::exit(1)`; otherwise
proceed towards connecting with both tokens. -/
def mainStartup (discord_token : Option String)
    (openai_token : Option String) : StartupResult :=
  match discord_token with
  | none => .exited 1 ["Expected a discord token in the environment"]
  | some d =>
    match openai_token with
    | none => .exited 1 ["Expected a openai token in the environment"]
    | some o => .connected d o

/-! ## Helper lemmas about `ask_gpt` and `Bot.message` -/

/-- With a token that parses as a header value, a transport failure returns
the generic error after the request was posted. -/
theorem ask_gpt_net_failure (tok : String) (m : GPTMessage)
    (h : headerValueValid ("Bearer " ++ tok) = true) :
    ask_gpt tok m .failure = ⟨[requestBody m], .error⟩ := by
  simp [ask_gpt, h]

/-- With a token that parses as a header value, a body that fails to
deserialize returns the generic error. -/
theorem ask_gpt_bad_json (tok : String) (m : GPTMessage) (body : Json)
    (h : headerValueValid ("Bearer " ++ tok) = true)
    (hj : ChatCompletion.fromJson? body = none) :
    ask_gpt tok m (.success body) = ⟨[requestBody m], .error⟩ := by
  simp [ask_gpt, h, hj]

/-- With a token that parses as a header value, a body that deserializes with
a nonempty `choices` returns the first choice's message. -/
theorem ask_gpt_first_choice (tok : String) (m : GPTMessage) (body : Json)
    (cc : ChatCompletion) (c : Choice) (rest : List Choice)
    (h : headerValueValid ("Bearer " ++ tok) = true)
    (hj : ChatCompletion.fromJson? body = some cc)
    (hc : cc.choices = c :: rest) :
    ask_gpt tok m (.success body) = ⟨[requestBody m], .ok c.message⟩ := by
  simp [ask_gpt, h, hj, hc]

/-- With a token that parses as a header value, a body that deserializes with
an empty `choices` panics on `choices[0]`. -/
theorem ask_gpt_choices_empty (tok : String) (m : GPTMessage) (body : Json)
    (cc : ChatCompletion)
    (h : headerValueValid ("Bearer " ++ tok) = true)
    (hj : ChatCompletion.fromJson? body = some cc)
    (hc : cc.choices = []) :
    ask_gpt tok m (.success body) = ⟨[requestBody m], .panicked⟩ := by
  simp [ask_gpt, h, hj, hc]

/-- On a non-bot message, when `ask_gpt` returns `Err` the handler sends the
single fallback reply. -/
theorem message_replies_on_error (tok : String) (msg : DiscordMessage)
    (net : HttpResponse) (hbot : msg.author_bot = false)
    (herr : (ask_gpt tok ⟨"user", msg.content⟩ net).result = .error) :
    (Bot.message tok msg net).replies = [ERROR_MESSAGE] := by
  simp [Bot.message, hbot, herr]

/-! ## Serialization round-trip lemmas -/

/-- An in-range integer deserializes as `i32` to itself. -/
theorem Json.getI32?_of_range (n : Int) (h : i32Range n) :
    (Json.num n).getI32? = some n := if_pos h

/-- An in-range integer deserializes as `i64` to itself. -/
theorem Json.getI64?_of_range (n : Int) (h : i64Range n) :
    (Json.num n).getI64? = some n := if_pos h

/-- `GPTMessage` serialization round-trips. -/
theorem gptMessage_fromJson_toJson (m : GPTMessage) :
    GPTMessage.fromJson? m.toJson = some m := rfl

/-- `Usage` serialization round-trips when the counters are in `i32` range. -/
theorem usage_fromJson_toJson (u : Usage)
    (h1 : i32Range u.prompt_tokens) (h2 : i32Range u.completion_tokens)
    (h3 : i32Range u.total_tokens) :
    Usage.fromJson? u.toJson = some u := by
  have e1 := Json.getI32?_of_range _ h1
  have e2 := Json.getI32?_of_range _ h2
  have e3 := Json.getI32?_of_range _ h3
  simp [Usage.fromJson?, Usage.toJson, Json.getField, List.lookup, e1, e2, e3]

/-- `Choice` serialization round-trips when `index` is in `i32` range. -/
theorem choice_fromJson_toJson (c : Choice) (h : i32Range c.index) :
    Choice.fromJson? c.toJson = some c := by
  have e := Json.getI32?_of_range _ h
  simp [Choice.fromJson?, Choice.toJson, Json.getField, List.lookup, e,
    Json.getStr?, gptMessage_fromJson_toJson]

/-- A serialized choice list deserializes to itself. -/
theorem decodeChoices_toJson (cs : List Choice)
    (h : ∀ c ∈ cs, i32Range c.index) :
    decodeChoices (cs.map Choice.toJson) = some cs := by
  induction cs with
  | nil => rfl
  | cons c cs ih =>
    rw [List.map_cons, decodeChoices]
    rw [choice_fromJson_toJson c (h c (List.mem_cons_self c cs))]
    rw [ih (fun x hx => h x (List.mem_cons_of_mem c hx))]
    rfl

/-- `ChatCompletion` serialization round-trips when all integer fields are in
range. -/
theorem chatCompletion_fromJson_toJson (cc : ChatCompletion)
    (hcr : i64Range cc.created)
    (h1 : i32Range cc.usage.prompt_tokens)
    (h2 : i32Range cc.usage.completion_tokens)
    (h3 : i32Range cc.usage.total_tokens)
    (hch : ∀ c ∈ cc.choices, i32Range c.index) :
    ChatCompletion.fromJson? cc.toJson = some cc := by
  have ecr := Json.getI64?_of_range _ hcr
  have eu := usage_fromJson_toJson cc.usage h1 h2 h3
  have ech := decodeChoices_toJson cc.choices hch
  simp [ChatCompletion.fromJson?, ChatCompletion.toJson, Json.getField,
    List.lookup, Json.getStr?, Json.getArr?, ecr, eu, ech]

/-! ## Deserialization inversion lemmas: required fields -/

/-- An array-field read succeeds only on an actual array. -/
theorem Json.getArr?_eq_some (j : Json) (xs : List Json)
    (h : j.getArr? = some xs) : j = .arr xs := by
  cases j <;> simp_all [Json.getArr?]

/-- A successfully deserialized `Usage` had all three counters present. -/
theorem usage_requires_fields (j : Json) (u : Usage)
    (h : Usage.fromJson? j = some u) :
    (j.getField "prompt_tokens").isSome ∧
    (j.getField "completion_tokens").isSome ∧
    (j.getField "total_tokens").isSome := by
  simp only [Usage.fromJson?, Option.bind_eq_bind, Option.bind_eq_some,
    bind, Option.pure_def, Option.some.injEq] at h
  obtain ⟨a, ha, pt, hpt, b, hb, ct, hct, c, hc, tt, htt, _⟩ := h
  simp [ha, hb, hc]

/-- A successfully deserialized `Choice` had all three fields present. -/
theorem choice_requires_fields (j : Json) (c : Choice)
    (h : Choice.fromJson? j = some c) :
    (j.getField "message").isSome ∧
    (j.getField "finish_reason").isSome ∧
    (j.getField "index").isSome := by
  simp only [Choice.fromJson?, Option.bind_eq_bind, Option.bind_eq_some,
    bind, Option.pure_def, Option.some.injEq] at h
  obtain ⟨a, ha, m, hm, b, hb, fr, hfr, d, hd, idx, hidx, _⟩ := h
  simp [ha, hb, hd]

/-- A successfully deserialized choice list deserialized every element. -/
theorem decodeChoices_mem_some (xs : List Json) (ys : List Choice)
    (h : decodeChoices xs = some ys) :
    ∀ x ∈ xs, ∃ c, Choice.fromJson? x = some c := by
  induction xs generalizing ys with
  | nil => simp
  | cons a l ih =>
    simp only [decodeChoices, Option.bind_eq_bind, Option.bind_eq_some,
      Option.pure_def, Option.some.injEq] at h
    obtain ⟨c, hc, cs, hcs, _⟩ := h
    intro x hx
    rcases List.mem_cons.mp hx with rfl | hx'
    · exact ⟨c, hc⟩
    · exact ih cs hcs x hx'

/-- A successfully deserialized `ChatCompletion` had every declared field
present: the struct derives `Deserialize` with no defaults or optionals. -/
theorem chatCompletion_requires_fields (body : Json)
    (cc : ChatCompletion) (h : ChatCompletion.fromJson? body = some cc) :
    (body.getField "id").isSome ∧ (body.getField "object").isSome ∧
    (body.getField "created").isSome ∧ (body.getField "model").isSome ∧
    (∃ u, body.getField "usage" = some u ∧
      (u.getField "prompt_tokens").isSome ∧
      (u.getField "completion_tokens").isSome ∧
      (u.getField "total_tokens").isSome) ∧
    (∃ xs, body.getField "choices" = some (.arr xs) ∧
      ∀ x ∈ xs, (x.getField "message").isSome ∧
        (x.getField "finish_reason").isSome ∧
        (x.getField "index").isSome) := by
  simp only [ChatCompletion.fromJson?, Option.bind_eq_bind, Option.bind_eq_some,
    Option.pure_def, Option.some.injEq] at h
  obtain ⟨a, ha, idv, hidv, b, hb, obv, hobv, c, hc, crv, hcrv, d, hd, mov,
    hmov, e, he, uv, huv, f, hf, xs, hxs, cs, hcs, _⟩ := h
  refine ⟨by simp [ha], by simp [hb], by simp [hc], by simp [hd],
    ⟨e, he, usage_requires_fields e uv huv⟩, xs, ?_, ?_⟩
  · rw [← Json.getArr?_eq_some f xs hxs]
    exact hf
  · intro x hx
    obtain ⟨ch, hch⟩ := decodeChoices_mem_some xs cs hcs x hx
    exact choice_requires_fields x ch hch

/-! ## Claim theorems -/

/-- C1: for every inbound message whose author is not flagged as a bot, the
handler makes exactly one `ask_gpt` call, and the `GPTMessage` passed to it
has role `"user"` and content equal to the inbound message's text — for every
network outcome. -/
theorem nonbot_message_makes_one_user_call (tok : String) (msg : DiscordMessage)
    (net : HttpResponse) (h : msg.author_bot = false) :
    (Bot.message tok msg net).gptCalls = [⟨"user", msg.content⟩] := by
  unfold Bot.message
  rw [if_neg (by simp [h])]
  cases hres : (ask_gpt tok ⟨"user", msg.content⟩ net).result <;> simp [hres]

/-- C1 witness. -/
theorem nonbot_message_makes_one_user_call_witness :
    (Bot.message "tok" ⟨false, "hi"⟩ .failure).gptCalls = [⟨"user", "hi"⟩] :=
  nonbot_message_makes_one_user_call "tok" ⟨false, "hi"⟩ .failure rfl

/-- C2: for every inbound message whose author is flagged as a bot, the
handler makes zero `ask_gpt` calls, posts no requests, and sends zero
replies: it returns silently. -/
theorem bot_message_discarded_silently (tok : String) (msg : DiscordMessage)
    (net : HttpResponse) (h : msg.author_bot = true) :
    Bot.message tok msg net = ⟨[], [], [], false⟩ := by
  simp [Bot.message, h]

/-- C2 witness. -/
theorem bot_message_discarded_silently_witness :
    Bot.message "tok" ⟨true, "hi"⟩ .failure = ⟨[], [], [], false⟩ :=
  bot_message_discarded_silently "tok" ⟨true, "hi"⟩ .failure rfl

/-- C3: when the completion call succeeds, the handler sends exactly one
reply whose text is the content of the first element of `choices`; the
remaining elements (`rest`) have no effect on the reply. -/
theorem success_replies_first_choice_content (tok : String)
    (msg : DiscordMessage) (body : Json) (cc : ChatCompletion) (c : Choice)
    (rest : List Choice) (hbot : msg.author_bot = false)
    (htok : headerValueValid ("Bearer " ++ tok) = true)
    (hj : ChatCompletion.fromJson? body = some cc)
    (hc : cc.choices = c :: rest) :
    (Bot.message tok msg (.success body)).replies = [c.message.content] := by
  have hask := ask_gpt_first_choice tok ⟨"user", msg.content⟩ body cc c rest htok hj hc
  simp [Bot.message, hbot, hask]

/-- C3 witness: a two-choice response; only the first choice's content
(`"Hello!"`) is sent. -/
theorem success_replies_first_choice_content_witness :
    (Bot.message "tok" ⟨false, "hi"⟩ (.success (ChatCompletion.toJson
      ⟨"id", "chat.completion", 0, "gpt-3.5-turbo", ⟨1, 2, 3⟩,
        [⟨⟨"assistant", "Hello!"⟩, "stop", 0⟩,
         ⟨⟨"assistant", "ignored"⟩, "stop", 1⟩]⟩))).replies = ["Hello!"] :=
  success_replies_first_choice_content "tok" ⟨false, "hi"⟩ _
    ⟨"id", "chat.completion", 0, "gpt-3.5-turbo", ⟨1, 2, 3⟩,
      [⟨⟨"assistant", "Hello!"⟩, "stop", 0⟩,
       ⟨⟨"assistant", "ignored"⟩, "stop", 1⟩]⟩
    ⟨⟨"assistant", "Hello!"⟩, "stop", 0⟩
    [⟨⟨"assistant", "ignored"⟩, "stop", 1⟩]
    rfl (by decide) (by decide) rfl

/-- C4: when the completion call fails — the transport fails outright, or the
body (e.g. a non-2xx error body) fails to deserialize — the handler sends
exactly one reply equal to the fixed fallback string, verbatim, identical for
every failure variant. -/
theorem failure_replies_fixed_fallback (tok : String) (msg : DiscordMessage)
    (net : HttpResponse) (hbot : msg.author_bot = false)
    (htok : headerValueValid ("Bearer " ++ tok) = true)
    (hfail : net = .failure ∨
      ∃ b, net = .success b ∧ ChatCompletion.fromJson? b = none) :
    (Bot.message tok msg net).replies =
      ["Unable to get a response. If this problem continues, please contact the administrator of the bot."] := by
  have herr : (ask_gpt tok ⟨"user", msg.content⟩ net).result = .error := by
    rcases hfail with h | ⟨b, hb, hj⟩
    · subst h
      rw [ask_gpt_net_failure _ _ htok]
    · subst hb
      rw [ask_gpt_bad_json _ _ _ htok hj]
  exact message_replies_on_error tok msg net hbot herr

/-- C4 witness: a transport failure yields the fallback reply. -/
theorem failure_replies_fixed_fallback_witness :
    (Bot.message "tok" ⟨false, "hi"⟩ .failure).replies =
      ["Unable to get a response. If this problem continues, please contact the administrator of the bot."] :=
  failure_replies_fixed_fallback "tok" ⟨false, "hi"⟩ .failure rfl (by decide)
    (Or.inl rfl)

/-- C5 counterexample: on the well-formed response whose `choices` is empty,
`ask_gpt` does not surface the generic error to the caller — the call
panics. -/
theorem ask_gpt_empty_choices_not_error :
    (ask_gpt "tok" ⟨"user", "hi"⟩ (.success (ChatCompletion.toJson
      ⟨"id", "chat.completion", 0, "gpt-3.5-turbo", ⟨1, 2, 3⟩, []⟩))).result
        ≠ .error ∧
    (ask_gpt "tok" ⟨"user", "hi"⟩ (.success (ChatCompletion.toJson
      ⟨"id", "chat.completion", 0, "gpt-3.5-turbo", ⟨1, 2, 3⟩, []⟩))).result
        = .panicked := by
  constructor
  · decide
  · decide

/-- C5 (amended): for a well-formed completion response whose `choices` is
empty, `ask_gpt` panics with the out-of-bounds access `choices[0]` — the
source does not defensively check the empty sequence — rather than returning
the generic error to the caller. -/
theorem ask_gpt_empty_choices_panics (tok : String) (m : GPTMessage)
    (body : Json) (cc : ChatCompletion)
    (htok : headerValueValid ("Bearer " ++ tok) = true)
    (hj : ChatCompletion.fromJson? body = some cc)
    (hc : cc.choices = []) :
    (ask_gpt tok m (.success body)).result = .panicked ∧
    (ask_gpt tok m (.success body)).result ≠ .error := by
  rw [ask_gpt_choices_empty tok m body cc htok hj hc]
  exact ⟨rfl, by simp⟩

/-- C5 (amended) witness. -/
theorem ask_gpt_empty_choices_panics_witness :
    (ask_gpt "t2" ⟨"user", "ping"⟩ (.success (ChatCompletion.toJson
      ⟨"id2", "chat.completion", 1, "gpt-3.5-turbo", ⟨4, 5, 9⟩, []⟩))).result
        = .panicked ∧
    (ask_gpt "t2" ⟨"user", "ping"⟩ (.success (ChatCompletion.toJson
      ⟨"id2", "chat.completion", 1, "gpt-3.5-turbo", ⟨4, 5, 9⟩, []⟩))).result
        ≠ .error :=
  ask_gpt_empty_choices_panics "t2" ⟨"user", "ping"⟩ _
    ⟨"id2", "chat.completion", 1, "gpt-3.5-turbo", ⟨4, 5, 9⟩, []⟩
    (by decide) (by decide) rfl

/-- C6: for every user text, the completion client posts exactly one request
whose body is exactly the JSON object with a `"model"` field equal to the
fixed constant and a `"messages"` field holding exactly one turn with role
`"user"` and content the user text — no other turns or fields. -/
theorem request_body_exact_shape (tok : String) (content : String)
    (net : HttpResponse)
    (htok : headerValueValid ("Bearer " ++ tok) = true) :
    (ask_gpt tok ⟨"user", content⟩ net).sentRequests =
      [.obj [("model", .str "gpt-3.5-turbo"),
             ("messages", .arr [.obj [("role", .str "user"),
                                      ("content", .str content)]])]] := by
  simp [ask_gpt, htok, requestBody, GPTMessage.toJson]

/-- C6 witness. -/
theorem request_body_exact_shape_witness :
    (ask_gpt "tok" ⟨"user", "hello"⟩ .failure).sentRequests =
      [.obj [("model", .str "gpt-3.5-turbo"),
             ("messages", .arr [.obj [("role", .str "user"),
                                      ("content", .str "hello")]])]] :=
  request_body_exact_shape "tok" "hello" .failure (by decide)

/-- C7: if either required environment variable is absent, startup exits
with code 1 (non-zero) printing a single human-readable line naming the
missing token, and never reaches the gateway-connection stage. -/
theorem startup_missing_env_exits (d o : Option String)
    (h : d = none ∨ o = none) :
    ∃ s, mainStartup d o = .exited 1 [s] ∧
      (d = none → s = "Expected a discord token in the environment") ∧
      (d ≠ none → s = "Expected a openai token in the environment") ∧
      ∀ dt ot, mainStartup d o ≠ .connected dt ot := by
  cases d with
  | none =>
    exact ⟨_, rfl, fun _ => rfl, fun hd => absurd rfl hd,
      fun dt ot => by simp [mainStartup]⟩
  | some dv =>
    cases o with
    | none =>
      exact ⟨_, rfl, fun hd => absurd hd (by simp), fun _ => rfl,
        fun dt ot => by simp [mainStartup]⟩
    | some ov =>
      rcases h with h | h <;> exact absurd h (by simp)

/-- C7 witness: only the completion-API token is set. -/
theorem startup_missing_env_exits_witness :
    ∃ s, mainStartup none (some "sk-x") = .exited 1 [s] ∧
      ((none : Option String) = none →
        s = "Expected a discord token in the environment") ∧
      ((none : Option String) ≠ none →
        s = "Expected a openai token in the environment") ∧
      ∀ dt ot, mainStartup none (some "sk-x") ≠ .connected dt ot :=
  startup_missing_env_exits none (some "sk-x") (Or.inl rfl)

/-- C8: the JSON round trip preserves user text exactly, embedded quotes and
non-ASCII Unicode included: a serialized request turn deserializes to itself,
and a serialized completion response echoing the same content deserializes to
itself, so `choices[0].message.content` comes back unchanged. -/
theorem json_roundtrip_preserves_text (role content id obj model fr : String)
    (created pt ct tt idx : Int) (hcr : i64Range created) (h1 : i32Range pt)
    (h2 : i32Range ct) (h3 : i32Range tt) (hidx : i32Range idx) :
    GPTMessage.fromJson? (GPTMessage.toJson ⟨role, content⟩)
        = some ⟨role, content⟩ ∧
    ChatCompletion.fromJson? (ChatCompletion.toJson
        ⟨id, obj, created, model, ⟨pt, ct, tt⟩, [⟨⟨role, content⟩, fr, idx⟩]⟩)
      = some ⟨id, obj, created, model, ⟨pt, ct, tt⟩,
          [⟨⟨role, content⟩, fr, idx⟩]⟩ := by
  refine ⟨gptMessage_fromJson_toJson _,
    chatCompletion_fromJson_toJson _ hcr h1 h2 h3 ?_⟩
  intro c hc
  rcases List.mem_singleton.mp hc with rfl
  exact hidx

/-- C8 witness: text with embedded quotes and non-ASCII Unicode. -/
theorem json_roundtrip_preserves_text_witness :
    GPTMessage.fromJson? (GPTMessage.toJson
        ⟨"user", "He said \"héllo ☺\""⟩)
        = some ⟨"user", "He said \"héllo ☺\""⟩ ∧
    ChatCompletion.fromJson? (ChatCompletion.toJson
        ⟨"cmpl-1", "chat.completion", 1700000000, "gpt-3.5-turbo", ⟨1, 2, 3⟩,
          [⟨⟨"user", "He said \"héllo ☺\""⟩, "stop", 0⟩]⟩)
      = some ⟨"cmpl-1", "chat.completion", 1700000000, "gpt-3.5-turbo",
          ⟨1, 2, 3⟩, [⟨⟨"user", "He said \"héllo ☺\""⟩, "stop", 0⟩]⟩ :=
  json_roundtrip_preserves_text "user" "He said \"héllo ☺\"" "cmpl-1"
    "chat.completion" "gpt-3.5-turbo" "stop" 1700000000 1 2 3 0
    (by decide) (by decide) (by decide) (by decide) (by decide)

/-- C9: a completion-API token containing a newline — a byte that is invalid
in an HTTP header value — makes `ask_gpt` panic while building the
`Authorization` header, before any HTTP request is posted, for every message
and network outcome, instead of returning an error `Result`. -/
theorem invalid_token_header_panics (m : GPTMessage) (net : HttpResponse) :
    ask_gpt "bad\ntoken" m net = ⟨[], .panicked⟩ := by
  have h : headerValueValid "Bearer bad\ntoken" = false := by decide
  simp [ask_gpt, h]

/-- C10: a completion response missing any of the fields the core never uses
(id, object, created, model, a usage counter, a choice's finish_reason or
index) fails deserialization, so `ask_gpt` returns the generic error and the
handler sends the fallback reply — even when `choices[0].message.content` is
present and well-formed. -/
theorem missing_unused_field_fails_deserialization (tok : String)
    (msg : DiscordMessage) (body : Json)
    (hbot : msg.author_bot = false)
    (htok : headerValueValid ("Bearer " ++ tok) = true)
    (hmiss : body.getField "id" = none ∨ body.getField "object" = none ∨
      body.getField "created" = none ∨ body.getField "model" = none ∨
      (∃ u, body.getField "usage" = some u ∧
        (u.getField "prompt_tokens" = none ∨
         u.getField "completion_tokens" = none ∨
         u.getField "total_tokens" = none)) ∨
      (∃ xs, body.getField "choices" = some (.arr xs) ∧
        ∃ x ∈ xs, x.getField "finish_reason" = none ∨
          x.getField "index" = none)) :
    ChatCompletion.fromJson? body = none ∧
    (Bot.message tok msg (.success body)).replies = [ERROR_MESSAGE] := by
  have hnone : ChatCompletion.fromJson? body = none := by
    cases hcc : ChatCompletion.fromJson? body with
    | none => rfl
    | some cc =>
      exfalso
      obtain ⟨hid, hob, hcr, hmo, ⟨u, hu, hu1, hu2, hu3⟩, xs, hxs, hall⟩ :=
        chatCompletion_requires_fields body cc hcc
      rcases hmiss with h | h | h | h | ⟨u', hu', h⟩ | ⟨xs', hxs', x, hxmem, h⟩
      · simp [h] at hid
      · simp [h] at hob
      · simp [h] at hcr
      · simp [h] at hmo
      · rw [hu] at hu'
        injection hu' with heq
        subst heq
        rcases h with h | h | h
        · simp [h] at hu1
        · simp [h] at hu2
        · simp [h] at hu3
      · rw [hxs] at hxs'
        injection hxs' with heq
        injection heq with heq2
        subst heq2
        obtain ⟨hm, hfr, hidx⟩ := hall x hxmem
        rcases h with h | h
        · simp [h] at hfr
        · simp [h] at hidx
  refine ⟨hnone, ?_⟩
  apply message_replies_on_error tok msg _ hbot
  rw [ask_gpt_bad_json tok ⟨"user", msg.content⟩ body htok hnone]

/-- C10 witness: a response body that is complete and well-formed — including
`choices[0].message.content` — except that `id` is absent. -/
theorem missing_unused_field_fails_deserialization_witness :
    ChatCompletion.fromJson? (.obj [("object", .str "chat.completion"),
      ("created", .num 0), ("model", .str "gpt-3.5-turbo"),
      ("usage", Usage.toJson ⟨1, 2, 3⟩),
      ("choices", .arr [Choice.toJson ⟨⟨"assistant", "Hello!"⟩, "stop", 0⟩])])
      = none ∧
    (Bot.message "tok" ⟨false, "hi"⟩ (.success
      (.obj [("object", .str "chat.completion"),
        ("created", .num 0), ("model", .str "gpt-3.5-turbo"),
        ("usage", Usage.toJson ⟨1, 2, 3⟩),
        ("choices", .arr
          [Choice.toJson ⟨⟨"assistant", "Hello!"⟩, "stop", 0⟩])]))).replies
      = [ERROR_MESSAGE] :=
  missing_unused_field_fails_deserialization "tok" ⟨false, "hi"⟩ _
    rfl (by decide) (Or.inl rfl)

end ChatBot
